import Mathlib

/-
Verification of zzril/soccer-results (soccer-results.py).

The script fetches Bundesliga matchday data and prints, per match, the team
names, current score, a reconstructed two-column goal timeline, and the
running state.  The embedding below translates the pure parts of the script:
the data model (matches and goal events), the field extractors, the goal
timeline reconstruction (`getGoalsTuple`), the team-name filter
(`getMatchesByTeamName`), and the text formatting of one match block.
Network access (`getAllMatches`), argument parsing and the act of printing
are side effects outside the embedding; the printed text is modelled as the
list of lines the printing code emits.
-/

namespace Soccer

/-- A goal event as delivered by the feed: the cumulative score after the
goal (`ScoreTeam1`/`ScoreTeam2`), the minute, the scorer, and the penalty
and own-goal flags. -/
structure GoalEvent where
  scoreTeam1 : Nat
  scoreTeam2 : Nat
  matchMinute : Nat
  goalGetterName : String
  isPenalty : Bool
  isOwnGoal : Bool
  deriving Repr, DecidableEq, Inhabited

/-- A match record: the two team names, the results list (most recent
first, empty when the match has not begun), the chronological goal list,
and the finished flag. -/
structure Match where
  team1Name : String
  team2Name : String
  matchResults : List (Nat × Nat)
  goals : List GoalEvent
  matchIsFinished : Bool
  deriving Repr, DecidableEq, Inhabited

/-- `getTeamNames`: the pair of team names (source lines 53-54). -/
def getTeamNames (m : Match) : String × String :=
  (m.team1Name, m.team2Name)

/-- `getScore`: `(0, 0)` when the results list is empty, otherwise the pair
stored in its first element (source lines 56-61). -/
def getScore (m : Match) : Nat × Nat :=
  match m.matchResults with
  | [] => (0, 0)
  | currentMatchResult :: _ => currentMatchResult

/-- `getGoalsList` (source lines 63-64). -/
def getGoalsList (m : Match) : List GoalEvent :=
  m.goals

/-- `getNewScore`: the cumulative score pair carried by a goal event
(source lines 66-67). -/
def getNewScore (goal : GoalEvent) : Nat × Nat :=
  (goal.scoreTeam1, goal.scoreTeam2)

/-- The pair of aligned per-team sequences built by `getGoalsTuple`; a
`none` entry is the placeholder the script appends to the other team's
list. -/
abbrev GoalsTuple := List (Option GoalEvent) × List (Option GoalEvent)

/-- The loop of `getGoalsTuple` (source lines 76-92), as structural
recursion on the remaining goal list with the running score as arguments.
A home goal (`newHomeScore = current + 1`, away unchanged) goes to the home
list with a placeholder in the away list; an away goal symmetrically; any
other score relation aborts the whole reconstruction with `none`. -/
def getGoalsTupleAux : List GoalEvent → Nat → Nat → Option GoalsTuple
  | [], _, _ => some ([], [])
  | goal :: rest, currentHomeScore, currentAwayScore =>
    if goal.scoreTeam1 = currentHomeScore + 1 ∧ goal.scoreTeam2 = currentAwayScore then
      match getGoalsTupleAux rest (currentHomeScore + 1) currentAwayScore with
      | none => none
      | some (homeGoals, awayGoals) => some (some goal :: homeGoals, none :: awayGoals)
    else if goal.scoreTeam1 = currentHomeScore ∧ goal.scoreTeam2 = currentAwayScore + 1 then
      match getGoalsTupleAux rest currentHomeScore (currentAwayScore + 1) with
      | none => none
      | some (homeGoals, awayGoals) => some (none :: homeGoals, some goal :: awayGoals)
    else none

/-- `getGoalsTuple` (source lines 69-94): reconstruct the two aligned goal
sequences from the match's goal list, starting from score `(0, 0)`. -/
def getGoalsTuple (m : Match) : Option GoalsTuple :=
  getGoalsTupleAux (getGoalsList m) 0 0

/-- `hasFinished` (source lines 108-109). -/
def hasFinished (m : Match) : Bool :=
  m.matchIsFinished

/-- `hasBegun` (source lines 111-112): the results list is non-empty. -/
def hasBegun (m : Match) : Bool :=
  decide (0 < m.matchResults.length)

/-- Model of Python's `str.casefold`: lower-case every character
(ASCII case folding via `Char.toLower`). -/
def casefold (s : String) : String :=
  String.mk (s.toList.map Char.toLower)

/-- Model of Python's `sub in hay` on the underlying character lists:
`leadsWith sub hay` holds when `sub` starts `hay`. -/
def leadsWith : List Char → List Char → Bool
  | [], _ => true
  | _ :: _, [] => false
  | a :: s, b :: t => a == b && leadsWith s t

/-- Model of Python's `sub in hay`: `sub` occurs contiguously in `hay`. -/
def occursIn (sub : List Char) : List Char → Bool
  | [] => sub.isEmpty
  | c :: t => leadsWith sub (c :: t) || occursIn sub t

/-- `hasTeam` (source lines 116-118): the case-folded substring occurs in
one of the two case-folded team names. -/
def hasTeam (m : Match) (teamNameSubstring : String) : Bool :=
  let teamNames := [casefold (getTeamNames m).1, casefold (getTeamNames m).2]
  teamNames.any (fun teamName => occursIn (casefold teamNameSubstring).toList teamName.toList)

/-- `getMatchesByTeamName` (source lines 120-126) applied to an already
fetched list: `none` (the absent filter) returns the list unchanged,
`some s` keeps the matches satisfying `hasTeam`. -/
def getMatchesByTeamName (teamNameSubstring : Option String) (allMatches : List Match) :
    List Match :=
  match teamNameSubstring with
  | none => allMatches
  | some s => allMatches.filter (fun m => hasTeam m s)

/-- `maxMinuteDigits` (source line 40). -/
def maxMinuteDigits : Nat := 2

/-- `getRunningStateGerman` (source lines 130-131). -/
def getRunningStateGerman (m : Match) : String :=
  if hasFinished m then "beendet"
  else if hasBegun m then "läuft"
  else "noch nicht gestartet"

/-- `teamNamesToString` (source lines 133-134). -/
def teamNamesToString (teamNames : String × String) : String :=
  teamNames.1 ++ " - " ++ teamNames.2

/-- `scoreToString` (source lines 136-139) on the score pair `getScore`
produces (its `None` branch is unreachable from `getScore`). -/
def scoreToString (score : Nat × Nat) : String :=
  toString score.1 ++ " : " ++ toString score.2

/-- Python's `str.rjust` with space padding. -/
def rjust (s : String) (width : Nat) : String :=
  String.mk (List.replicate (width - s.length) ' ') ++ s

/-- Python's `str.ljust` with space padding. -/
def ljust (s : String) (width : Nat) : String :=
  s ++ String.mk (List.replicate (width - s.length) ' ')

/-- The apostrophe character printed after the minute. -/
def minuteMark : String :=
  String.singleton (Char.ofNat 39)

/-- `goalToString` (source lines 141-151): the empty string for the `None`
placeholder, otherwise `minute' name` with optional penalty and own-goal
suffixes. -/
def goalToString : Option GoalEvent → String
  | none => ""
  | some goal =>
    let minute := rjust (toString goal.matchMinute) maxMinuteDigits
    let goalString := minute ++ minuteMark ++ " " ++ goal.goalGetterName
    let goalString := if goal.isPenalty then goalString ++ " (P)" else goalString
    if goal.isOwnGoal then goalString ++ " (OG)" else goalString

/-- The lines printed by `printGoals` (source lines 153-174): nothing for a
`None` tuple, nothing when the two lists differ in length or are empty;
otherwise one line per goal with both columns left-justified to their
computed widths, followed by a blank line when `newline` is set. -/
def printGoalsLines (goalsTuple : Option GoalsTuple) (newline : Bool) : List String :=
  match goalsTuple with
  | none => []
  | some (hg, ag) =>
    let homeGoals := hg.map goalToString
    let awayGoals := ag.map goalToString
    let numGoals := homeGoals.length
    if awayGoals.length ≠ numGoals ∨ numGoals = 0 then []
    else
      let minWidth := 15
      let spaceBetween := 5
      let maxHomeColumnWidth := max minWidth ((homeGoals.map String.length).foldl max 0 + spaceBetween)
      let maxAwayColumnWidth := max minWidth ((awayGoals.map String.length).foldl max 0 + spaceBetween)
      List.zipWith (fun h a => ljust h maxHomeColumnWidth ++ ljust a maxAwayColumnWidth)
        homeGoals awayGoals
      ++ (if newline then [""] else [])

/-- The lines `updateAll` (source lines 199-202) prints for one match: team
names, blank, score, blank, the goal section, the running-state label in
parentheses, blank.  `print(x, end=chr(10)+chr(10))` contributes `x` and an
empty line. -/
def matchBlockLines (m : Match) : List String :=
  [teamNamesToString (getTeamNames m), ""]
  ++ [scoreToString (getScore m), ""]
  ++ printGoalsLines (getGoalsTuple m) true
  ++ ["(" ++ getRunningStateGerman m ++ ")", ""]

/-- Number of real (non-placeholder) entries in a timeline sequence. -/
def countReal (l : List (Option GoalEvent)) : Nat :=
  l.countP (fun o => o.isSome)

/-- The spec's validity condition on the raw goal list: starting from the
given running score, every event's cumulative score is the running score
with exactly one side incremented by exactly 1. -/
def chainOK : Nat → Nat → List GoalEvent → Bool
  | _, _, [] => true
  | ch, ca, goal :: rest =>
    ((goal.scoreTeam1 == ch + 1 && goal.scoreTeam2 == ca)
      || (goal.scoreTeam1 == ch && goal.scoreTeam2 == ca + 1))
    && chainOK goal.scoreTeam1 goal.scoreTeam2 rest

/-- The observable side assignment of a reconstructed timeline: which
positions of each sequence hold a real event. -/
def sideMask (t : GoalsTuple) : List Bool × List Bool :=
  (t.1.map Option.isSome, t.2.map Option.isSome)

/-- Sample event: home goal to 1-0, minute 23. -/
def g10 : GoalEvent := ⟨1, 0, 23, "Alice", false, false⟩

/-- Sample event: away goal to 1-1, minute 67. -/
def g11 : GoalEvent := ⟨1, 1, 67, "Bob", false, false⟩

/-- Sample event: cumulative score 2-0, which skips the 1-0 step when it
comes first. -/
def g20 : GoalEvent := ⟨2, 0, 30, "Carl", false, false⟩

/-- Sample match with a consistent goal list 1-0 then 1-1. -/
def mGood : Match := ⟨"FC Hausen", "SV Auswärts", [(1, 1)], [g10, g11], true⟩

/-- Sample match whose first goal event skips the 1-0 step. -/
def mBad : Match := ⟨"FC A", "SV B", [(2, 0)], [g20], false⟩

/-- Sample match whose team names contain "Bayern". -/
def mBay : Match := ⟨"FC Bayern München", "1. FC Köln", [(1, 1)], [g10, g11], true⟩

/-- Same cumulative scores as `mGood`, but different minutes (not
increasing), scorers and flags. -/
def mGoodAlt : Match :=
  ⟨"FC C", "SV D", [(1, 1)], [⟨1, 0, 90, "Xavier", true, false⟩, ⟨1, 1, 5, "Yuri", false, true⟩], true⟩

/-- Sample match that has not begun: no results, no goals. -/
def mNotStarted : Match := ⟨"FC E", "SV F", [], [], false⟩

/-- Home sequence of `getGoalsTuple mGood`. -/
def hgGood : List (Option GoalEvent) := [some g10, none]

/-- Away sequence of `getGoalsTuple mGood`. -/
def agGood : List (Option GoalEvent) := [none, some g11]

/-- The empty substring occurs in every string (Python: `"" in s` is
always true). -/
lemma occursIn_nil : ∀ hay, occursIn [] hay = true
  | [] => rfl
  | _ :: t => by simp [occursIn, leadsWith]

@[simp]
lemma countReal_nil : countReal [] = 0 := rfl

@[simp]
lemma countReal_cons_some (g : GoalEvent) (l : List (Option GoalEvent)) :
    countReal (some g :: l) = countReal l + 1 := by
  simp [countReal, List.countP_cons]

@[simp]
lemma countReal_cons_none (l : List (Option GoalEvent)) :
    countReal (none :: l) = countReal l := by
  simp [countReal, List.countP_cons]

/-- Inversion of one loop iteration of `getGoalsTuple`: a successful run on
`goal :: rest` is a home step or an away step, each with a successful run
on `rest` at the updated running score. -/
lemma getGoalsTupleAux_cons_inv {goal : GoalEvent} {rest : List GoalEvent}
    {ch ca : Nat} {hg ag : List (Option GoalEvent)}
    (h : getGoalsTupleAux (goal :: rest) ch ca = some (hg, ag)) :
    (goal.scoreTeam1 = ch + 1 ∧ goal.scoreTeam2 = ca ∧
      ∃ hs as2, getGoalsTupleAux rest (ch + 1) ca = some (hs, as2) ∧
        hg = some goal :: hs ∧ ag = none :: as2) ∨
    (goal.scoreTeam1 = ch ∧ goal.scoreTeam2 = ca + 1 ∧
      ∃ hs as2, getGoalsTupleAux rest ch (ca + 1) = some (hs, as2) ∧
        hg = none :: hs ∧ ag = some goal :: as2) := by
  rw [getGoalsTupleAux] at h
  split at h
  · rename_i hcond
    left
    refine ⟨hcond.1, hcond.2, ?_⟩
    split at h
    · exact Option.noConfusion h
    · rename_i heq
      obtain ⟨h1, h2⟩ := Prod.mk.injEq .. ▸ Option.some.inj h
      exact ⟨_, _, heq, h1.symm, h2.symm⟩
  · split at h
    · rename_i hcond
      right
      refine ⟨hcond.1, hcond.2, ?_⟩
      split at h
      · exact Option.noConfusion h
      · rename_i heq
        obtain ⟨h1, h2⟩ := Prod.mk.injEq .. ▸ Option.some.inj h
        exact ⟨_, _, heq, h1.symm, h2.symm⟩
    · exact Option.noConfusion h

/-- A successful run on the empty list yields two empty sequences. -/
lemma getGoalsTupleAux_nil_inv {ch ca : Nat} {hg ag : List (Option GoalEvent)}
    (h : getGoalsTupleAux [] ch ca = some (hg, ag)) : hg = [] ∧ ag = [] := by
  rw [getGoalsTupleAux] at h
  obtain ⟨h1, h2⟩ := Prod.mk.injEq .. ▸ Option.some.inj h
  exact ⟨h1.symm, h2.symm⟩

/-- Both output sequences of a successful run have the length of the input
goal list. -/
lemma getGoalsTupleAux_lengths :
    ∀ {goals : List GoalEvent} {ch ca : Nat} {hg ag : List (Option GoalEvent)},
      getGoalsTupleAux goals ch ca = some (hg, ag) →
      hg.length = goals.length ∧ ag.length = goals.length := by
  intro goals
  induction goals with
  | nil =>
    intro ch ca hg ag h
    obtain ⟨rfl, rfl⟩ := getGoalsTupleAux_nil_inv h
    exact ⟨rfl, rfl⟩
  | cons goal rest ih =>
    intro ch ca hg ag h
    rcases getGoalsTupleAux_cons_inv h with
      ⟨_, _, hs, as2, hrec, rfl, rfl⟩ | ⟨_, _, hs, as2, hrec, rfl, rfl⟩ <;>
      · obtain ⟨l1, l2⟩ := ih hrec
        simp [l1, l2]

/-- Pointwise description of a successful run: at every index exactly one
sequence holds a real event, that event is the input event at that index,
and its cumulative score is the starting score plus the number of real
entries in the corresponding prefix. -/
lemma getGoalsTupleAux_pointwise :
    ∀ {goals : List GoalEvent} {ch ca : Nat} {hg ag : List (Option GoalEvent)},
      getGoalsTupleAux goals ch ca = some (hg, ag) →
      ∀ i, i < goals.length →
        ((hg.getD i none).isSome = !(ag.getD i none).isSome) ∧
        (hg.getD i none = some (goals.getD i default) ∨
          ag.getD i none = some (goals.getD i default)) ∧
        (goals.getD i default).scoreTeam1 = ch + countReal (hg.take (i + 1)) ∧
        (goals.getD i default).scoreTeam2 = ca + countReal (ag.take (i + 1)) := by
  intro goals
  induction goals with
  | nil =>
    intro ch ca hg ag _ i hi
    exact absurd hi (by simp)
  | cons goal rest ih =>
    intro ch ca hg ag h i hi
    rcases getGoalsTupleAux_cons_inv h with
      ⟨hc1, hc2, hs, as2, hrec, rfl, rfl⟩ | ⟨hc1, hc2, hs, as2, hrec, rfl, rfl⟩
    · cases i with
      | zero => simp [hc1, hc2]
      | succ j =>
        have hj : j < rest.length := by simpa using hi
        obtain ⟨p1, p2, p3, p4⟩ := ih hrec j hj
        refine ⟨by simpa using p1, by simpa using p2, ?_, ?_⟩
        · simp only [List.getD_cons_succ, List.take_succ_cons, countReal_cons_some]
          omega
        · simpa using p4
    · cases i with
      | zero => simp [hc1, hc2]
      | succ j =>
        have hj : j < rest.length := by simpa using hi
        obtain ⟨p1, p2, p3, p4⟩ := ih hrec j hj
        refine ⟨by simpa using p1, by simpa using p2, by simpa using p3, ?_⟩
        · simp only [List.getD_cons_succ, List.take_succ_cons, countReal_cons_some]
          omega

/-- A successful run certifies the spec's chain condition on the raw goal
list. -/
lemma getGoalsTupleAux_chainOK :
    ∀ {goals : List GoalEvent} {ch ca : Nat} {hg ag : List (Option GoalEvent)},
      getGoalsTupleAux goals ch ca = some (hg, ag) → chainOK ch ca goals = true := by
  intro goals
  induction goals with
  | nil => intro ch ca hg ag _; rfl
  | cons goal rest ih =>
    intro ch ca hg ag h
    rcases getGoalsTupleAux_cons_inv h with
      ⟨hc1, hc2, hs, as2, hrec, rfl, rfl⟩ | ⟨hc1, hc2, hs, as2, hrec, rfl, rfl⟩ <;>
      · rw [chainOK]
        have := ih hrec
        simp_all

/-- The final real-entry counts of a successful run recover the last
event's cumulative score, offset by the starting score. -/
lemma getGoalsTupleAux_last :
    ∀ {goals : List GoalEvent} {ch ca : Nat} {hg ag : List (Option GoalEvent)},
      getGoalsTupleAux goals ch ca = some (hg, ag) →
      ∀ g, goals.getLast? = some g →
        g.scoreTeam1 = ch + countReal hg ∧ g.scoreTeam2 = ca + countReal ag := by
  intro goals
  induction goals with
  | nil =>
    intro ch ca hg ag _ g hlast
    exact absurd hlast (by simp)
  | cons goal rest ih =>
    intro ch ca hg ag h g hlast
    rcases getGoalsTupleAux_cons_inv h with
      ⟨hc1, hc2, hs, as2, hrec, rfl, rfl⟩ | ⟨hc1, hc2, hs, as2, hrec, rfl, rfl⟩ <;>
      cases rest with
      | nil =>
        obtain ⟨rfl, rfl⟩ := getGoalsTupleAux_nil_inv hrec
        simp only [List.getLast?_singleton, Option.some.injEq] at hlast
        subst hlast
        constructor <;> simp <;> omega
      | cons r rs =>
        rw [List.getLast?_cons_cons] at hlast
        obtain ⟨q1, q2⟩ := ih hrec g hlast
        constructor <;> simp <;> omega

/-- The run of `getGoalsTupleAux` looks only at the cumulative-score pairs:
two goal lists with the same scores succeed or fail together and give the
same side assignment. -/
lemma getGoalsTupleAux_mask :
    ∀ {goals1 goals2 : List GoalEvent} {ch ca : Nat},
      goals1.map getNewScore = goals2.map getNewScore →
      Option.map sideMask (getGoalsTupleAux goals1 ch ca) =
        Option.map sideMask (getGoalsTupleAux goals2 ch ca) := by
  intro goals1
  induction goals1 with
  | nil =>
    intro goals2 ch ca h
    cases goals2 with
    | nil => rfl
    | cons b t2 => simp at h
  | cons a t1 ih =>
    intro goals2 ch ca h
    cases goals2 with
    | nil => simp at h
    | cons b t2 =>
      simp only [List.map_cons, List.cons.injEq] at h
      obtain ⟨hab, hmap⟩ := h
      have hs1 : a.scoreTeam1 = b.scoreTeam1 := congrArg Prod.fst hab
      have hs2 : a.scoreTeam2 = b.scoreTeam2 := congrArg Prod.snd hab
      rw [getGoalsTupleAux, getGoalsTupleAux, ← hs1, ← hs2]
      by_cases hcond1 : a.scoreTeam1 = ch + 1 ∧ a.scoreTeam2 = ca
      · simp only [if_pos hcond1]
        have IH := @ih t2 (ch + 1) ca hmap
        cases e1 : getGoalsTupleAux t1 (ch + 1) ca with
        | none =>
          cases e2 : getGoalsTupleAux t2 (ch + 1) ca with
          | none => rfl
          | some p2 => rw [e1, e2] at IH; simp at IH
        | some p1 =>
          cases e2 : getGoalsTupleAux t2 (ch + 1) ca with
          | none => rw [e1, e2] at IH; simp at IH
          | some p2 =>
            obtain ⟨h1, a1⟩ := p1
            obtain ⟨h2, a2⟩ := p2
            rw [e1, e2] at IH
            have IH2 : sideMask (h1, a1) = sideMask (h2, a2) := by simpa using IH
            simp only [sideMask, List.map_cons, Prod.mk.injEq] at IH2 ⊢
            simp [sideMask, IH2.1, IH2.2]
      · simp only [if_neg hcond1]
        by_cases hcond2 : a.scoreTeam1 = ch ∧ a.scoreTeam2 = ca + 1
        · simp only [if_pos hcond2]
          have IH := @ih t2 ch (ca + 1) hmap
          cases e1 : getGoalsTupleAux t1 ch (ca + 1) with
          | none =>
            cases e2 : getGoalsTupleAux t2 ch (ca + 1) with
            | none => rfl
            | some p2 => rw [e1, e2] at IH; simp at IH
          | some p1 =>
            cases e2 : getGoalsTupleAux t2 ch (ca + 1) with
            | none => rw [e1, e2] at IH; simp at IH
            | some p2 =>
              obtain ⟨h1, a1⟩ := p1
              obtain ⟨h2, a2⟩ := p2
              rw [e1, e2] at IH
              have IH2 : sideMask (h1, a1) = sideMask (h2, a2) := by simpa using IH
              simp only [sideMask, List.map_cons, Prod.mk.injEq] at IH2 ⊢
              simp [sideMask, IH2.1, IH2.2]
        · simp only [if_neg hcond2]

/-- C1: whenever `getGoalsTuple` succeeds, the home and away sequences both
have the length of the input goal list, at each index exactly one sequence
holds a real event (the other the placeholder), that event is the input
event at this index, and each event's cumulative score equals the number of
real entries in the corresponding prefixes, i.e. replaying the accepted
events reproduces every cumulative score. -/
theorem getGoalsTuple_success_spec (m : Match) (hg ag : List (Option GoalEvent))
    (h : getGoalsTuple m = some (hg, ag)) :
    hg.length = m.goals.length ∧ ag.length = m.goals.length ∧
    ∀ i, i < m.goals.length →
      ((hg.getD i none).isSome = !(ag.getD i none).isSome) ∧
      (hg.getD i none = some (m.goals.getD i default) ∨
        ag.getD i none = some (m.goals.getD i default)) ∧
      (m.goals.getD i default).scoreTeam1 = countReal (hg.take (i + 1)) ∧
      (m.goals.getD i default).scoreTeam2 = countReal (ag.take (i + 1)) := by
  have h' : getGoalsTupleAux m.goals 0 0 = some (hg, ag) := h
  obtain ⟨l1, l2⟩ := getGoalsTupleAux_lengths h'
  refine ⟨l1, l2, fun i hi => ?_⟩
  obtain ⟨p1, p2, p3, p4⟩ := getGoalsTupleAux_pointwise h' i hi
  exact ⟨p1, p2, by omega, by omega⟩

/-- Witness for C1 at the two-goal match `mGood`. -/
theorem getGoalsTuple_success_spec_witness :
    getGoalsTuple mGood = some (hgGood, agGood) ∧
    hgGood.length = mGood.goals.length ∧
    (hgGood.getD 0 none).isSome = !(agGood.getD 0 none).isSome ∧
    (mGood.goals.getD 0 default).scoreTeam1 = countReal (hgGood.take 1) := by
  have h : getGoalsTuple mGood = some (hgGood, agGood) := by decide
  exact ⟨h, (getGoalsTuple_success_spec mGood hgGood agGood h).1,
    ((getGoalsTuple_success_spec mGood hgGood agGood h).2.2 0 (by decide)).1,
    ((getGoalsTuple_success_spec mGood hgGood agGood h).2.2 0 (by decide)).2.2.1⟩

/-- C2: a goal list that violates the chain condition anywhere (some event
is not the running score with exactly one side incremented by 1) makes
`getGoalsTuple` return `none` for the whole match; no partial pair is
returned (success always carries full-length sequences, by
`getGoalsTuple_success_spec`). -/
theorem getGoalsTuple_invalid_none (m : Match) (h : chainOK 0 0 m.goals = false) :
    getGoalsTuple m = none := by
  cases e : getGoalsTuple m with
  | none => rfl
  | some r =>
    obtain ⟨hg, ag⟩ := r
    have e' : getGoalsTupleAux m.goals 0 0 = some (hg, ag) := e
    have hc := getGoalsTupleAux_chainOK e'
    rw [hc] at h
    exact absurd h (by simp)

/-- Witness for C2 at the match `mBad` whose goal list skips the 1-0
step. -/
theorem getGoalsTuple_invalid_none_witness :
    chainOK 0 0 mBad.goals = false ∧ getGoalsTuple mBad = none :=
  ⟨by decide, getGoalsTuple_invalid_none mBad (by decide)⟩

/-- C3: `getScore` is `(0, 0)` on an empty results list and the first
element of a non-empty results list. -/
theorem getScore_spec (m : Match) :
    (m.matchResults = [] → getScore m = (0, 0)) ∧
    ∀ r rest, m.matchResults = r :: rest → getScore m = r := by
  constructor
  · intro h
    simp [getScore, h]
  · intro r rest h
    simp [getScore, h]

/-- Witness for C3 on a not-started match and on `mGood`. -/
theorem getScore_spec_witness :
    getScore mNotStarted = (0, 0) ∧ getScore mGood = (1, 1) :=
  ⟨(getScore_spec mNotStarted).1 rfl, (getScore_spec mGood).2 (1, 1) [] rfl⟩

/-- C4: when `getGoalsTuple` fails, the block printed for the match is
exactly team names, score and running-state label with their blank
separator lines — zero goal lines and no error message. -/
theorem matchBlockLines_on_failure (m : Match) (h : getGoalsTuple m = none) :
    matchBlockLines m =
      [teamNamesToString (getTeamNames m), "", scoreToString (getScore m), "",
        "(" ++ getRunningStateGerman m ++ ")", ""] := by
  simp [matchBlockLines, h, printGoalsLines]

/-- Witness for C4 at `mBad`. -/
theorem matchBlockLines_on_failure_witness :
    getGoalsTuple mBad = none ∧
    matchBlockLines mBad =
      [teamNamesToString (getTeamNames mBad), "", scoreToString (getScore mBad), "",
        "(" ++ getRunningStateGerman mBad ++ ")", ""] :=
  ⟨by decide, matchBlockLines_on_failure mBad (by decide)⟩

/-- C5: filtering with the absent substring is the identity on the match
list. -/
theorem getMatchesByTeamName_none_id (allMatches : List Match) :
    getMatchesByTeamName none allMatches = allMatches := rfl

/-- C6: the filter is idempotent: filtering an already filtered list with
the same substring returns it unchanged. -/
theorem getMatchesByTeamName_idem (teamNameSubstring : Option String)
    (allMatches : List Match) :
    getMatchesByTeamName teamNameSubstring (getMatchesByTeamName teamNameSubstring allMatches) =
      getMatchesByTeamName teamNameSubstring allMatches := by
  cases teamNameSubstring with
  | none => rfl
  | some s =>
    simp only [getMatchesByTeamName]
    rw [List.filter_filter]
    simp

/-- C7: the filter is case-insensitive: substrings with the same case
folding give the same result list, and a match is kept iff the case-folded
substring occurs in a case-folded team name. -/
theorem getMatchesByTeamName_case_insensitive (s1 s2 : String)
    (allMatches : List Match) (h : casefold s1 = casefold s2) :
    getMatchesByTeamName (some s1) allMatches = getMatchesByTeamName (some s2) allMatches ∧
    ∀ m, m ∈ getMatchesByTeamName (some s1) allMatches ↔
      m ∈ allMatches ∧
        (occursIn (casefold s1).toList (casefold m.team1Name).toList = true ∨
          occursIn (casefold s1).toList (casefold m.team2Name).toList = true) := by
  constructor
  · simp only [getMatchesByTeamName]
    congr 1
    funext m
    simp only [hasTeam, h]
  · intro m
    simp [getMatchesByTeamName, List.mem_filter, hasTeam, getTeamNames]

/-- Witness for C7 with the substrings "bayern" and "BAYERN". -/
theorem getMatchesByTeamName_case_insensitive_witness :
    casefold "bayern" = casefold "BAYERN" ∧
    getMatchesByTeamName (some "bayern") [mBay, mBad] =
      getMatchesByTeamName (some "BAYERN") [mBay, mBad] :=
  ⟨by decide, (getMatchesByTeamName_case_insensitive "bayern" "BAYERN" [mBay, mBad]
    (by decide)).1⟩

/-- C8: filtering with the explicit empty substring keeps every match,
the same result as the absent filter. -/
theorem getMatchesByTeamName_empty (allMatches : List Match) :
    getMatchesByTeamName (some "") allMatches = allMatches ∧
    getMatchesByTeamName (some "") allMatches = getMatchesByTeamName none allMatches := by
  have hall : ∀ m : Match, hasTeam m "" = true := by
    intro m
    have he : (casefold "").data = [] := rfl
    simp [hasTeam, he, occursIn_nil]
  have h1 : getMatchesByTeamName (some "") allMatches = allMatches := by
    simp only [getMatchesByTeamName]
    exact List.filter_eq_self.mpr (fun m _ => hall m)
  exact ⟨h1, h1⟩

/-- C9: `getGoalsTuple` reads only the cumulative-score pairs: two matches
whose goal lists agree on `getNewScore` succeed or fail together and assign
every position to the same side, whatever the minutes, scorers and flags
are. -/
theorem getGoalsTuple_score_only (m1 m2 : Match)
    (h : m1.goals.map getNewScore = m2.goals.map getNewScore) :
    Option.map sideMask (getGoalsTuple m1) = Option.map sideMask (getGoalsTuple m2) :=
  getGoalsTupleAux_mask h

/-- Witness for C9: `mGoodAlt` differs from `mGood` in minutes (even
non-increasing), scorers and flags, yet reconstruction agrees. -/
theorem getGoalsTuple_score_only_witness :
    mGood.goals.map getNewScore = mGoodAlt.goals.map getNewScore ∧
    Option.map sideMask (getGoalsTuple mGood) = Option.map sideMask (getGoalsTuple mGoodAlt) :=
  ⟨by decide, getGoalsTuple_score_only mGood mGoodAlt (by decide)⟩

/-- C10: on the empty goal list `getGoalsTuple` succeeds with two empty
sequences, and whenever it succeeds the number of real entries per sequence
equals the corresponding component of the last event's cumulative score. -/
theorem getGoalsTuple_counts (m : Match) :
    (m.goals = [] → getGoalsTuple m = some ([], [])) ∧
    ∀ hg ag, getGoalsTuple m = some (hg, ag) →
      ∀ g, m.goals.getLast? = some g →
        countReal hg = g.scoreTeam1 ∧ countReal ag = g.scoreTeam2 := by
  constructor
  · intro he
    show getGoalsTupleAux m.goals 0 0 = some ([], [])
    rw [he]
    rfl
  · intro hg ag h g hlast
    have h' : getGoalsTupleAux m.goals 0 0 = some (hg, ag) := h
    obtain ⟨q1, q2⟩ := getGoalsTupleAux_last h' g hlast
    omega

/-- Witness for C10 at the goalless `mNotStarted` and at `mGood`, whose
last event has cumulative score 1-1. -/
theorem getGoalsTuple_counts_witness :
    getGoalsTuple mNotStarted = some ([], []) ∧
    getGoalsTuple mGood = some (hgGood, agGood) ∧
    mGood.goals.getLast? = some g11 ∧
    countReal hgGood = g11.scoreTeam1 ∧ countReal agGood = g11.scoreTeam2 := by
  have h : getGoalsTuple mGood = some (hgGood, agGood) := by decide
  exact ⟨(getGoalsTuple_counts mNotStarted).1 rfl, h, by decide,
    ((getGoalsTuple_counts mGood).2 hgGood agGood h g11 (by decide)).1,
    ((getGoalsTuple_counts mGood).2 hgGood agGood h g11 (by decide)).2⟩

end Soccer
